import Mathlib

/-!
Shallow embedding of src/jni/sodium_jni_buffer.c, the JNI buffer
marshalling layer of libstodium.  Managed ByteBuffer handles are modelled
by the inductive type jobject; the JVM heap of byte arrays and the active
element pins are modelled by JVMState; each C function is translated into
a state-passing Lean function.  The JNI wrapper functions additionally
return the ordered list of marshalling events they perform, so that
call-counting and ordering properties can be stated and proved.
-/

/-- A managed buffer handle (a JNI jobject) as observed by this layer.
null models a NULL jbuffer.  direct models a buffer for which
GetDirectBufferAddress returns the native address addr and
GetDirectBufferCapacity returns cap.  heap models a non-direct buffer,
for which GetDirectBufferAddress returns NULL: arr is the jbyteArray
reference produced by the cached array() method, off the result of
arrayOffset(), rem the result of remaining(), and pinOk records whether
GetByteArrayElements succeeds in pinning the array (false models the
documented failure case in which GetByteArrayElements returns NULL). -/
inductive jobject where
  | null : jobject
  | direct (addr : Nat) (cap : Nat) : jobject
  | heap (arr : Nat) (off : Nat) (rem : Nat) (pinOk : Bool) : jobject

/-- The JVM-side state visible to this layer: the contents of every byte
array (indexed by reference id), the currently pinned element copies
(indexed by native pointer, where pointer 0 stands for NULL), and the
next fresh native pointer handed out by a successful pin. -/
structure JVMState where
  arrays  : Nat → List Nat
  pins    : Nat → Option (List Nat)
  nextPtr : Nat

/-- Translation of the C struct stodium_buffers (sodium_jni_buffer.c,
lines 112-118).  content is a native pointer with 0 standing for NULL.
The C field backing_array is only assigned when the buffer is not direct;
in the direct and null cases the field is uninitialized in C and is
modelled here by the value 0, which no theorem below depends on. -/
structure stodium_buffer where
  content : Nat
  offset : Nat
  capacity : Nat
  is_direct : Bool
  backing_array : Nat

/-- JNI GetByteArrayElements: on success it pins the array, records a
fresh native pointer mapping to a copy of the array elements, and returns
that pointer; on failure it returns NULL (pointer 0) and changes
nothing. -/
def GetByteArrayElements (st : JVMState) (arr : Nat) (pinOk : Bool) :
    Nat × JVMState :=
  if pinOk then
    (st.nextPtr,
      { st with
          pins := fun q => if q = st.nextPtr then some (st.arrays arr) else st.pins q,
          nextPtr := st.nextPtr + 1 })
  else (0, st)

/-- JNI ReleaseByteArrayElements: with commit = true (mode 0) the entire
pinned copy is written back into the array and the pin is freed; with
commit = false (JNI_ABORT) the pin is freed without any copy back.
Releasing a pointer that is not currently pinned is undefined behaviour
in JNI; it is modelled as leaving the state unchanged. -/
def ReleaseByteArrayElements (st : JVMState) (arr : Nat) (p : Nat)
    (commit : Bool) : JVMState :=
  match st.pins p with
  | none => st
  | some c =>
      if commit then
        { st with
            arrays := fun a => if a = arr then c else st.arrays a,
            pins := fun q => if q = p then none else st.pins q }
      else
        { st with pins := fun q => if q = p then none else st.pins q }

/-- Translation of stodium_get_buffer (lines 123-147).  A NULL jbuffer
yields the all-zero view marked direct; a direct buffer yields its
reported address and capacity with offset 0; a non-direct buffer is
resolved by calling array(), GetByteArrayElements, arrayOffset() and
remaining().  The C code performs no error checking on this path: when
the pin fails the view simply carries a NULL content pointer and the
invocation continues. -/
def stodium_get_buffer (st : JVMState) (jbuffer : jobject) :
    stodium_buffer × JVMState :=
  match jbuffer with
  | jobject.null => (⟨0, 0, 0, true, 0⟩, st)
  | jobject.direct addr cap => (⟨addr, 0, cap, true, 0⟩, st)
  | jobject.heap arr off rem pinOk =>
      let pr := GetByteArrayElements st arr pinOk
      (⟨pr.1, off, rem, false, arr⟩, pr.2)

/-- Translation of stodium_release_output (lines 152-159): a direct view
needs no action; otherwise the pin is released with copy back (mode 0). -/
def stodium_release_output (st : JVMState) (buffer : stodium_buffer) :
    JVMState :=
  if buffer.is_direct then st
  else ReleaseByteArrayElements st buffer.backing_array buffer.content true

/-- Translation of stodium_release_input (lines 164-171): a direct view or
a view with a NULL content pointer needs no action; otherwise the pin is
released without copy back (JNI_ABORT). -/
def stodium_release_input (st : JVMState) (buffer : stodium_buffer) :
    JVMState :=
  if buffer.is_direct || buffer.content == 0 then st
  else ReleaseByteArrayElements st buffer.backing_array buffer.content false

/-- Marshalling events performed by a wrapper, in order: a call to
stodium_get_buffer, the call to the external primitive, a call to
stodium_release_output, and a call to stodium_release_input. -/
inductive Event where
  | resolve (h : jobject) : Event
  | callPrimitive : Event
  | releaseOutput (h : jobject) : Event
  | releaseInput (h : jobject) : Event

/-- Number of stodium_get_buffer calls recorded in a trace. -/
def countResolve : List Event → Nat
  | [] => 0
  | Event.resolve _ :: r => countResolve r + 1
  | _ :: r => countResolve r

/-- Number of stodium_release_output calls recorded in a trace. -/
def countReleaseOutput : List Event → Nat
  | [] => 0
  | Event.releaseOutput _ :: r => countReleaseOutput r + 1
  | _ :: r => countReleaseOutput r

/-- Number of stodium_release_input calls recorded in a trace. -/
def countReleaseInput : List Event → Nat
  | [] => 0
  | Event.releaseInput _ :: r => countReleaseInput r + 1
  | _ :: r => countReleaseInput r

/-- Number of external primitive calls recorded in a trace. -/
def countCallPrimitive : List Event → Nat
  | [] => 0
  | Event.callPrimitive :: r => countCallPrimitive r + 1
  | _ :: r => countCallPrimitive r

/-- Scans a trace and fails exactly when a release-as-output event occurs
after a release-as-input event has already been seen. -/
def noOutputAfterInput : List Event → Bool → Bool
  | [], _ => true
  | Event.releaseInput _ :: r, _ => noOutputAfterInput r true
  | Event.releaseOutput _ :: r, seenInput => !seenInput && noOutputAfterInput r seenInput
  | _ :: r, seenInput => noOutputAfterInput r seenInput

/-- Every release-as-output event of the trace occurs before every
release-as-input event. -/
def outputsPrecedeInputs (tr : List Event) : Bool :=
  noOutputAfterInput tr false

/-- Type of the external crypto_core_hsalsa20 primitive: it receives the
four native pointers computed by the AS_OUTPUT and AS_INPUT macros
(content + offset of each resolved view) and the current state, and
returns its integer status code together with the state it leaves. -/
abbrev Prim4 := Nat → Nat → Nat → Nat → JVMState → Int × JVMState

/-- Type of the external crypto_scalarmult_curve25519 primitive. -/
abbrev Prim3 := Nat → Nat → Nat → JVMState → Int × JVMState

/-- Type of the external crypto_scalarmult_curve25519_base primitive. -/
abbrev Prim2 := Nat → Nat → JVMState → Int × JVMState

/-- Translation of the JNI wrapper crypto_1core_1hsalsa20 (lines 206-229),
parameterized by the external primitive.  Returns the status code, the
final state, and the ordered list of marshalling events performed. -/
def crypto_1core_1hsalsa20 (st : JVMState) (dst src key cst : jobject)
    (prim : Prim4) : Int × JVMState × List Event :=
  let r1 := stodium_get_buffer st dst
  let r2 := stodium_get_buffer r1.2 src
  let r3 := stodium_get_buffer r2.2 key
  let r4 := stodium_get_buffer r3.2 cst
  let pr := prim (r1.1.content + r1.1.offset) (r2.1.content + r2.1.offset)
      (r3.1.content + r3.1.offset) (r4.1.content + r4.1.offset) r4.2
  let s1 := stodium_release_output pr.2 r1.1
  let s2 := stodium_release_input s1 r2.1
  let s3 := stodium_release_input s2 r3.1
  let s4 := stodium_release_input s3 r4.1
  (pr.1, s4,
    [Event.resolve dst, Event.resolve src, Event.resolve key, Event.resolve cst,
      Event.callPrimitive, Event.releaseOutput dst, Event.releaseInput src,
      Event.releaseInput key, Event.releaseInput cst])

/-- Translation of the JNI wrapper crypto_1scalarmult_1curve25519
(lines 241-260). -/
def crypto_1scalarmult_1curve25519 (st : JVMState) (dst priv pub : jobject)
    (prim : Prim3) : Int × JVMState × List Event :=
  let r1 := stodium_get_buffer st dst
  let r2 := stodium_get_buffer r1.2 priv
  let r3 := stodium_get_buffer r2.2 pub
  let pr := prim (r1.1.content + r1.1.offset) (r2.1.content + r2.1.offset)
      (r3.1.content + r3.1.offset) r3.2
  let s1 := stodium_release_output pr.2 r1.1
  let s2 := stodium_release_input s1 r2.1
  let s3 := stodium_release_input s2 r3.1
  (pr.1, s3,
    [Event.resolve dst, Event.resolve priv, Event.resolve pub,
      Event.callPrimitive, Event.releaseOutput dst, Event.releaseInput priv,
      Event.releaseInput pub])

/-- Translation of the JNI wrapper crypto_1scalarmult_1curve25519_1base
(lines 263-278). -/
def crypto_1scalarmult_1curve25519_1base (st : JVMState) (dst src : jobject)
    (prim : Prim2) : Int × JVMState × List Event :=
  let r1 := stodium_get_buffer st dst
  let r2 := stodium_get_buffer r1.2 src
  let pr := prim (r1.1.content + r1.1.offset) (r2.1.content + r2.1.offset) r2.2
  let s1 := stodium_release_output pr.2 r1.1
  let s2 := stodium_release_input s1 r2.1
  (pr.1, s2,
    [Event.resolve dst, Event.resolve src,
      Event.callPrimitive, Event.releaseOutput dst, Event.releaseInput src])

/-- State of the external libsodium one-time initialization: ready records
whether the library has already been initialized, setupFails models an
environment in which first-time setup fails. -/
structure SodiumState where
  ready : Bool
  setupFails : Bool

/-- Modelled from the spec: the external libsodium function sodium_init is
not part of this repository; per the documented contract referenced by the
spec it performs one-time setup, returning 0 on the first successful call,
1 when the library was already initialized (its idempotency guarantee),
and -1 on failure. -/
def sodium_init (st : SodiumState) : Int × SodiumState :=
  if st.ready then (1, st)
  else if st.setupFails then (-1, st)
  else (0, { st with ready := true })

/-- Translation of the JNI wrapper stodium_1init (lines 176-183): it calls
sodium_init once, returns -1 exactly when that call returned -1, and
returns 0 otherwise. -/
def stodium_1init (st : SodiumState) : Int × SodiumState :=
  let r := sodium_init st
  if r.1 = -1 then (-1, r.2) else (0, r.2)

/-- Translation of the JNI wrapper sodium_1init (lines 191-193): it
returns the status of the external sodium_init unchanged. -/
def sodium_1init (st : SodiumState) : Int × SodiumState :=
  sodium_init st

/-- An initial JVM state with empty arrays and no active pins. -/
def st0 : JVMState := ⟨fun _ => [], fun _ => none, 1⟩

/-- A JVM state whose arrays all hold [7] and where pointer 1 is pinned to
a copy of array 0. -/
def stW : JVMState := ⟨fun _ => [7], fun q => if q = 1 then some [7] else none, 2⟩

/-- A JVM state whose arrays all hold [0, 0] and where pointer 1 is pinned
to the mutated copy [5, 6] of array 0. -/
def stPin : JVMState := ⟨fun _ => [0, 0], fun q => if q = 1 then some [5, 6] else none, 2⟩

/-- A pinned view of array 0 whose window is the single byte at offset 1. -/
def bufWin : stodium_buffer := ⟨1, 1, 1, false, 0⟩

/-- A pinned view of array 0 whose window is the single byte at offset 0. -/
def bufIn : stodium_buffer := ⟨1, 0, 1, false, 0⟩

/-- A four-buffer primitive that always reports status 0. -/
def prim4zero : Prim4 := fun _ _ _ _ s => (0, s)

/-- A four-buffer primitive that always reports status -3. -/
def prim4neg : Prim4 := fun _ _ _ _ s => (-3, s)

/-- A three-buffer primitive that always reports status -3. -/
def prim3neg : Prim3 := fun _ _ _ s => (-3, s)

/-- A two-buffer primitive that always reports status -3. -/
def prim2neg : Prim2 := fun _ _ s => (-3, s)

/-- C1: in each of the three primitive invocation wrappers
(crypto_1core_1hsalsa20, crypto_1scalarmult_1curve25519 and
crypto_1scalarmult_1curve25519_1base) the number of stodium_get_buffer
calls equals the number of stodium_release_output plus
stodium_release_input calls, whatever status the primitive returns. -/
theorem hsalsa20_scalarmult_release_totality
    (st : JVMState) (a b c d : jobject) (p4 : Prim4) (p3 : Prim3) (p2 : Prim2) :
    (countResolve (crypto_1core_1hsalsa20 st a b c d p4).2.2 =
      countReleaseOutput (crypto_1core_1hsalsa20 st a b c d p4).2.2 +
        countReleaseInput (crypto_1core_1hsalsa20 st a b c d p4).2.2) ∧
    (countResolve (crypto_1scalarmult_1curve25519 st a b c p3).2.2 =
      countReleaseOutput (crypto_1scalarmult_1curve25519 st a b c p3).2.2 +
        countReleaseInput (crypto_1scalarmult_1curve25519 st a b c p3).2.2) ∧
    (countResolve (crypto_1scalarmult_1curve25519_1base st a b p2).2.2 =
      countReleaseOutput (crypto_1scalarmult_1curve25519_1base st a b p2).2.2 +
        countReleaseInput (crypto_1scalarmult_1curve25519_1base st a b p2).2.2) :=
  ⟨rfl, rfl, rfl⟩

/-- C2 counterexample: in a state with no pins, a destination buffer whose
backing array cannot be pinned resolves to a view with a NULL content
pointer, yet the external primitive is still called exactly once and the
wrapper returns the primitive status 0 as if nothing had failed, so
resolution does not abort the invocation as the claim states. -/
theorem pin_failure_counterexample :
    (stodium_get_buffer st0 (jobject.heap 0 0 32 false)).1.content = 0 ∧
    countCallPrimitive
      (crypto_1core_1hsalsa20 st0 (jobject.heap 0 0 32 false) jobject.null
        jobject.null jobject.null prim4zero).2.2 = 1 ∧
    (crypto_1core_1hsalsa20 st0 (jobject.heap 0 0 32 false) jobject.null
      jobject.null jobject.null prim4zero).1 = 0 :=
  ⟨rfl, rfl, rfl⟩

/-- C2 (amended): when the runtime cannot pin the backing array of a
handle, resolution does not detect the failure and the invocation is not
aborted: the view is produced with a NULL base pointer, the primitive is
still called once, every resolved view is still released (resolve count
equals release count), and the wrapper returns the primitive status. -/
theorem pin_failure_ignored_resolution_continues
    (st : JVMState) (dst src cst : jobject) (arr off rem : Nat)
    (p4 : Prim4) (r : Int)
    (h : ∀ x y z w s, (p4 x y z w s).1 = r) :
    (stodium_get_buffer st (jobject.heap arr off rem false)).1.content = 0 ∧
    countCallPrimitive
      (crypto_1core_1hsalsa20 st dst src (jobject.heap arr off rem false) cst p4).2.2 = 1 ∧
    countResolve
      (crypto_1core_1hsalsa20 st dst src (jobject.heap arr off rem false) cst p4).2.2 =
      countReleaseOutput
        (crypto_1core_1hsalsa20 st dst src (jobject.heap arr off rem false) cst p4).2.2 +
        countReleaseInput
          (crypto_1core_1hsalsa20 st dst src (jobject.heap arr off rem false) cst p4).2.2 ∧
    (crypto_1core_1hsalsa20 st dst src (jobject.heap arr off rem false) cst p4).1 = r :=
  ⟨rfl, rfl, rfl, h _ _ _ _ _⟩

/-- Witness: a concrete invocation whose key handle cannot be pinned still
calls the primitive and returns its status. -/
theorem pin_failure_ignored_resolution_continues_witness :
    (prim4zero 0 0 0 0 st0).1 = 0 ∧
    (crypto_1core_1hsalsa20 st0 jobject.null jobject.null
      (jobject.heap 0 0 32 false) jobject.null prim4zero).1 = 0 :=
  ⟨rfl,
    (pin_failure_ignored_resolution_continues st0 jobject.null jobject.null
      jobject.null 0 0 32 prim4zero 0 (fun _ _ _ _ _ => rfl)).2.2.2⟩

/-- C3 counterexample: the backing array 0 holds [0, 0], the view window
of bufWin is the single byte at offset 1, and the pinned copy is [5, 6];
releasing the view as output rewrites byte 0 of the backing array, which
lies outside the window, from 0 to 5, because ReleaseByteArrayElements
copies back the entire pinned array rather than only the window bytes. -/
theorem release_output_outside_window_counterexample :
    bufWin.offset = 1 ∧ bufWin.capacity = 1 ∧ bufWin.is_direct = false ∧
    (stPin.arrays 0).get? 0 = some 0 ∧
    ((stodium_release_output stPin bufWin).arrays 0).get? 0 = some 5 := by
  decide

/-- C3 (amended): releasing a pinned view as output writes the entire
pinned copy back into the backing array and frees the pin; consequently,
when the pinned copy agrees with the backing array outside the view
window, the observable effect is exactly that the window bytes take their
values from the pinned copy and every byte outside the window (and every
other array) is unchanged.  The wrapper performs exactly one
release-as-output call on every run, whatever status the primitive
returns. -/
theorem release_output_commit_effect
    (st : JVMState) (p off len arr : Nat) (c : List Nat)
    (hpin : st.pins p = some c)
    (hagree : ∀ i : Nat, i < off ∨ off + len ≤ i →
      c.get? i = (st.arrays arr).get? i) :
    (stodium_release_output st ⟨p, off, len, false, arr⟩).arrays arr = c ∧
    (∀ i : Nat, off ≤ i → i < off + len →
      ((stodium_release_output st ⟨p, off, len, false, arr⟩).arrays arr).get? i =
        c.get? i) ∧
    (∀ i : Nat, i < off ∨ off + len ≤ i →
      ((stodium_release_output st ⟨p, off, len, false, arr⟩).arrays arr).get? i =
        (st.arrays arr).get? i) ∧
    (∀ a : Nat, a ≠ arr →
      (stodium_release_output st ⟨p, off, len, false, arr⟩).arrays a = st.arrays a) ∧
    (stodium_release_output st ⟨p, off, len, false, arr⟩).pins p = none ∧
    (∀ (st2 : JVMState) (w x y z : jobject) (p4 : Prim4),
      countReleaseOutput (crypto_1core_1hsalsa20 st2 w x y z p4).2.2 = 1) := by
  have hrel : stodium_release_output st ⟨p, off, len, false, arr⟩ =
      { st with
          arrays := fun a => if a = arr then c else st.arrays a,
          pins := fun q => if q = p then none else st.pins q } := by
    simp [stodium_release_output, ReleaseByteArrayElements, hpin]
  rw [hrel]
  refine ⟨by simp, ?_, ?_, ?_, by simp, fun st2 w x y z p4 => rfl⟩
  · intro i _ _
    simp
  · intro i hi
    simpa using hagree i hi
  · intro a ha
    simp [ha]

/-- Witness: a concrete pinned view of array 0 whose copy agrees with the
array; releasing as output frees the pin. -/
theorem release_output_commit_effect_witness :
    stW.pins 1 = some [7] ∧
    (stodium_release_output stW ⟨1, 0, 1, false, 0⟩).pins 1 = none :=
  ⟨by decide,
    (release_output_commit_effect stW 1 0 1 0 [7] (by decide)
      (fun i _ => rfl)).2.2.2.2.1⟩

/-- C4: resolving a non-null handle yields exactly one of the two
descriptor shapes: a direct buffer yields the direct view (reported
address, offset 0, length the reported capacity, no state change and no
copy), and a non-direct buffer whose pin succeeds yields the pinned view
(base pointer the fresh pin pointer, offset the reported arrayOffset,
length the reported remaining, backing_array the backing reference) with
the pin holding a copy of the backing array. -/
theorem resolve_descriptor_shapes
    (st : JVMState) (addr cap arr off rem : Nat) :
    stodium_get_buffer st (jobject.direct addr cap) = (⟨addr, 0, cap, true, 0⟩, st) ∧
    (stodium_get_buffer st (jobject.heap arr off rem true)).1 =
      ⟨st.nextPtr, off, rem, false, arr⟩ ∧
    (stodium_get_buffer st (jobject.heap arr off rem true)).2.pins st.nextPtr =
      some (st.arrays arr) :=
  ⟨rfl, rfl, by simp [stodium_get_buffer, GetByteArrayElements]⟩

/-- C5: resolving a NULL handle yields the null view (pointer 0, offset 0,
length 0) without error and without touching the state, and releasing
that view either as output or as input leaves the state unchanged. -/
theorem absent_buffer_transparency (st : JVMState) :
    stodium_get_buffer st jobject.null = (⟨0, 0, 0, true, 0⟩, st) ∧
    stodium_release_output st ⟨0, 0, 0, true, 0⟩ = st ∧
    stodium_release_input st ⟨0, 0, 0, true, 0⟩ = st :=
  ⟨rfl, rfl, rfl⟩

/-- C6: releasing a non-direct view as input never changes any backing
array, whatever the pinned copy holds, and when the content pointer is
not NULL the pin is freed. -/
theorem release_input_discards_pin
    (st : JVMState) (buffer : stodium_buffer) (hnd : buffer.is_direct = false) :
    (stodium_release_input st buffer).arrays = st.arrays ∧
    (buffer.content ≠ 0 →
      (stodium_release_input st buffer).pins buffer.content = none) := by
  constructor
  · by_cases hc : buffer.content = 0
    · simp [stodium_release_input, hnd, hc]
    · have hb : (buffer.content == 0) = false := by simpa using hc
      simp only [stodium_release_input, hnd, hb, Bool.or_self, if_false]
      unfold ReleaseByteArrayElements
      cases hp : st.pins buffer.content <;> simp [hp]
  · intro hc
    have hb : (buffer.content == 0) = false := by simpa using hc
    simp only [stodium_release_input, hnd, hb, Bool.or_self, if_false]
    unfold ReleaseByteArrayElements
    cases hp : st.pins buffer.content <;> simp [hp]

/-- Witness: a concrete non-direct view with a live pin; releasing as
input frees the pin (and, by the theorem, leaves all arrays unchanged). -/
theorem release_input_discards_pin_witness :
    bufIn.is_direct = false ∧ bufIn.content ≠ 0 ∧
    (stodium_release_input stW bufIn).pins 1 = none :=
  ⟨rfl, by decide, (release_input_discards_pin stW bufIn rfl).2 (by decide)⟩

/-- C7: each wrapper returns the status code of its external primitive
unchanged, also when that status is negative, and still performs its full
complement of release calls (one output release plus the input releases,
matching the number of resolved buffers). -/
theorem status_code_returned_unchanged
    (st : JVMState) (a b c d : jobject) (r : Int)
    (p4 : Prim4) (p3 : Prim3) (p2 : Prim2)
    (h4 : ∀ x y z w s, (p4 x y z w s).1 = r)
    (h3 : ∀ x y z s, (p3 x y z s).1 = r)
    (h2 : ∀ x y s, (p2 x y s).1 = r) :
    ((crypto_1core_1hsalsa20 st a b c d p4).1 = r ∧
      countReleaseOutput (crypto_1core_1hsalsa20 st a b c d p4).2.2 +
        countReleaseInput (crypto_1core_1hsalsa20 st a b c d p4).2.2 = 4) ∧
    ((crypto_1scalarmult_1curve25519 st a b c p3).1 = r ∧
      countReleaseOutput (crypto_1scalarmult_1curve25519 st a b c p3).2.2 +
        countReleaseInput (crypto_1scalarmult_1curve25519 st a b c p3).2.2 = 3) ∧
    ((crypto_1scalarmult_1curve25519_1base st a b p2).1 = r ∧
      countReleaseOutput (crypto_1scalarmult_1curve25519_1base st a b p2).2.2 +
        countReleaseInput (crypto_1scalarmult_1curve25519_1base st a b p2).2.2 = 2) :=
  ⟨⟨h4 _ _ _ _ _, rfl⟩, ⟨h3 _ _ _ _, rfl⟩, ⟨h2 _ _ _, rfl⟩⟩

/-- Witness: primitives that always report status -3 make each wrapper
return -3. -/
theorem status_code_returned_unchanged_witness :
    (prim4neg 0 0 0 0 st0).1 = -3 ∧
    (crypto_1core_1hsalsa20 st0 jobject.null jobject.null jobject.null
      jobject.null prim4neg).1 = -3 ∧
    (crypto_1scalarmult_1curve25519 st0 jobject.null jobject.null
      jobject.null prim3neg).1 = -3 ∧
    (crypto_1scalarmult_1curve25519_1base st0 jobject.null jobject.null
      prim2neg).1 = -3 := by
  have h := status_code_returned_unchanged st0 jobject.null jobject.null
    jobject.null jobject.null (-3) prim4neg prim3neg prim2neg
    (fun _ _ _ _ _ => rfl) (fun _ _ _ _ => rfl) (fun _ _ _ => rfl)
  exact ⟨rfl, h.1.1, h.2.1.1, h.2.2.1⟩

/-- C8: in the event trace of each wrapper, every release-as-output call
occurs before every release-as-input call. -/
theorem outputs_released_before_inputs
    (st : JVMState) (a b c d : jobject) (p4 : Prim4) (p3 : Prim3) (p2 : Prim2) :
    outputsPrecedeInputs (crypto_1core_1hsalsa20 st a b c d p4).2.2 = true ∧
    outputsPrecedeInputs (crypto_1scalarmult_1curve25519 st a b c p3).2.2 = true ∧
    outputsPrecedeInputs (crypto_1scalarmult_1curve25519_1base st a b p2).2.2 = true :=
  ⟨rfl, rfl, rfl⟩

/-- C9: when first-time setup does not fail, calling stodium_1init twice
in sequence returns status 0 both times and leaves the library
initialized; the second call succeeds through the idempotency of the
external sodium_init. -/
theorem stodium_init_idempotent
    (st : SodiumState) (h : st.setupFails = false) :
    (stodium_1init st).1 = 0 ∧ ((stodium_1init st).2).ready = true ∧
    (stodium_1init (stodium_1init st).2).1 = 0 := by
  rcases st with ⟨i, f⟩
  have hf : f = false := h
  subst hf
  cases i <;> decide

/-- Witness: starting from an uninitialized, non-failing state, both calls
return 0. -/
theorem stodium_init_idempotent_witness :
    (SodiumState.mk false false).setupFails = false ∧
    (stodium_1init ⟨false, false⟩).1 = 0 ∧
    (stodium_1init (stodium_1init ⟨false, false⟩).2).1 = 0 := by
  have h := stodium_init_idempotent ⟨false, false⟩ rfl
  exact ⟨rfl, h.1, h.2.2⟩

/-- C10: stodium_1init returns -1 exactly when the external sodium_init
returns -1 and 0 for every other external status, while sodium_1init
returns the external status unchanged; on an already-initialized state the
external call reports 1, so the two entry points return 0 and 1
respectively for the same external outcome. -/
theorem init_wrappers_status_normalization (st : SodiumState) :
    ((stodium_1init st).1 = if (sodium_init st).1 = -1 then (-1 : Int) else 0) ∧
    (sodium_1init st).1 = (sodium_init st).1 ∧
    (stodium_1init ⟨true, false⟩).1 = 0 ∧
    (sodium_1init ⟨true, false⟩).1 = 1 := by
  refine ⟨?_, rfl, by decide, by decide⟩
  by_cases hc : (sodium_init st).1 = -1
  · simp [stodium_1init, hc]
  · simp [stodium_1init, hc]
